import Mathlib

/-!
Verification of the deployment-bot pipeline (deploy_bot.py).

The Python source is shallowly embedded: the command executor
`execute_linux_cmd`, the AI advisor wrapper `ai_troubleshoot`, the clone-stage
error classifier, and the pipeline `deploy_web_app` become pure Lean functions.
Effects of a run (commands executed, advisor calls, notifications sent) are
recorded as an explicit event trace; the outcomes of the external world
(subprocess results, faults raised at await points, advisor transport results)
are supplied by an environment record `Env`, so every code path of the pipeline
is a value of the Lean function on some environment.
-/

namespace DeployBot

/-- Outcome of one subprocess run, as seen by the executor's inner try block:
the process completed (with decoded stdout/stderr texts), the 30 s wait timed
out, or some other exception was raised with message text. -/
inductive ExecOutcome where
  | completed (out err : String)
  | timedOut
  | exc (msg : String)
deriving DecidableEq, Repr

/-- Embedding of the Python coroutine execute_linux_cmd.  Given the command
string and the outcome of the subprocess machinery, it returns exactly the
string the Python function returns on that path.  Totality of this function is
the executor's contract that it never raises past its boundary. -/
def execute_linux_cmd (cmd : String) (o : ExecOutcome) : String :=
  match o with
  | ExecOutcome.completed out err =>
      if err ≠ "" then
        "命令执行失败：" ++ cmd ++ "\n错误信息：" ++ err
      else
        "命令执行成功：" ++ cmd ++ "\n输出：" ++ out
  | ExecOutcome.timedOut => "命令执行超时：" ++ cmd
  | ExecOutcome.exc msg => "命令执行异常：" ++ cmd ++ "\n异常信息：" ++ msg

/-- Outcome of one DeepSeek chat-completion call made by ai_troubleshoot: the
transport returned advice text, or it raised with message text. -/
inductive AIOutcome where
  | ok (advice : String)
  | exc (msg : String)
deriving DecidableEq, Repr

/-- Embedding of the Python coroutine ai_troubleshoot.  The error context is
sent to the external model; the returned string depends on the transport
outcome.  On a transport fault the degraded fallback string is returned, so
this function, too, is total: the advisor never raises. -/
def ai_troubleshoot (error_info : String) (o : AIOutcome) : String :=
  match o with
  | AIOutcome.ok advice => advice
  | AIOutcome.exc msg => "AI排查失败：" ++ msg ++ "\n请手动排查错误。"

/-- The fixed clone-stage error keyword list (git_error_keywords in the
source). -/
def git_error_keywords : List String :=
  ["fatal:", "error:", "Repository not found", "Could not resolve host",
   "Permission denied"]

/-- Python's substring test sub in s, on the character lists of the two
strings. -/
def strContains (s sub : String) : Bool :=
  decide (sub.data <:+: s.data)

/-- Embedding of the clone-stage classifier
any(keyword in pull_result for keyword in git_error_keywords). -/
def isFailure (s : String) : Bool :=
  git_error_keywords.any (fun k => strContains s k)

theorem strContains_iff (s sub : String) :
    strContains s sub = true ↔ sub.data <:+: s.data := by
  simp [strContains]

theorem sub_append_left {α : Type} {a b : List α} (h : a <:+: b) (c : List α) :
    a <:+: b ++ c := by
  obtain ⟨s, t, rfl⟩ := h
  exact ⟨s, t ++ c, by simp⟩

theorem sub_append_right {α : Type} {a b : List α} (h : a <:+: b) (c : List α) :
    a <:+: c ++ b := by
  obtain ⟨s, t, rfl⟩ := h
  exact ⟨c ++ s, t, by simp⟩

/-- The request body DeployRequest of the source (application name, git
repository URL, target port). -/
structure DeployRequest where
  app_name : String
  repo_url : String
  port : Nat
deriving DecidableEq, Repr

/-- The deploy directory f-string /opt/(app_name). -/
def deploy_dir (req : DeployRequest) : String :=
  "/opt/" ++ req.app_name

/-- The rm -rf cleanup command of step 1. -/
def rm_cmd (req : DeployRequest) : String :=
  "rm -rf " ++ deploy_dir req

/-- The git clone command of step 1 (pull_cmd in the source). -/
def pull_cmd (req : DeployRequest) : String :=
  "git clone " ++ req.repo_url ++ " " ++ deploy_dir req

/-- The pip install command of step 2 (install_cmd in the source). -/
def install_cmd (req : DeployRequest) : String :=
  "cd " ++ deploy_dir req ++ " && python3.9 -m pip install -r requirements.txt --user"

/-- The gunicorn launch command of step 3 (start_cmd in the source), including
the literal whitespace of the triple-quoted f-string. -/
def start_cmd (req : DeployRequest) : String :=
  "\n        cd " ++ deploy_dir req ++ " && \n        nohup python3.9 -m gunicorn -w 4 -b 0.0.0.0:"
    ++ toString req.port ++ " app:app > " ++ deploy_dir req ++ "/app.log 2>&1 &\n        "

/-- The netstat port probe command of step 4 (check_cmd in the source). -/
def check_cmd (req : DeployRequest) : String :=
  "netstat -tulpn | grep :" ++ toString req.port ++ " | grep python3.9"

/-- Environment of one pipeline run: the outcome the external world hands to
each await point, in stage order.  For the five executor calls,
Except.error msg models an unhandled fault raised at that await (caught
only by the pipeline's top-level except) and Except.ok o the executor
returning normally on subprocess outcome o; sleep_step = some msg models a
fault during the 2 s settle delay.  The two AIOutcome fields feed the two
possible ai_troubleshoot calls. -/
structure Env where
  rm_step : Except String ExecOutcome
  clone_step : Except String ExecOutcome
  install_step : Except String ExecOutcome
  start_step : Except String ExecOutcome
  sleep_step : Option String
  check_step : Except String ExecOutcome
  clone_ai : AIOutcome
  verify_ai : AIOutcome
deriving Repr

/-- Observable actions of one pipeline run, in order: a stage header being
appended (entry into that stage), an executor call returning, an
ai_troubleshoot call, and a send_wechat_notification call. -/
inductive Event where
  | exec (cmd result : String)
  | advise (ctx advice : String)
  | notify (title body : String)
  | stage (header : String)
deriving DecidableEq, Repr

/-- Terminal state of a pipeline run: the success path, the two failure
notification paths, or the top-level except handler. -/
inductive Status where
  | Succeeded
  | Failed
  | Errored
deriving DecidableEq, Repr

/-- Result of one pipeline run: terminal status, ordered event trace, and,
when the Verifying if-test on check_result was evaluated, the string it was
evaluated on. -/
structure PipelineResult where
  status : Status
  events : List Event
  verify_check : Option String
deriving DecidableEq, Repr

/-- The top-level except Exception handler of deploy_web_app: append the
exception text to the notification body and send the single 部署异常
notification. -/
def mkErrored (task_id content : String) (evs : List Event) (msg : String) :
    PipelineResult :=
  { status := Status.Errored,
    events := evs ++ [Event.notify ("部署异常[" ++ task_id ++ "]")
      (content ++ "#### 部署异常\n" ++ msg ++ "\n")],
    verify_check := none }

/-- Embedding of the Python coroutine deploy_web_app.  server_public_ip is
the module-level SERVER_PUBLIC_IP configuration value.  The function follows
the source line by line: step 1 removes the deploy directory and clones
(classifying the wrapped clone output and short-circuiting to a failure
notification on a keyword match), step 2 installs dependencies without
classification, step 3 launches the server, and step 4, after the settle
delay, probes the port and branches on the truthiness of the wrapped probe
output.  Any fault raised at an await point falls into mkErrored. -/
def deploy_web_app (server_public_ip task_id : String) (req : DeployRequest)
    (env : Env) : PipelineResult :=
  let content0 := "### 部署任务[" ++ task_id ++ "]\n应用名称：" ++ req.app_name
    ++ "\n仓库地址：" ++ req.repo_url ++ "\n端口：" ++ toString req.port ++ "\n\n"
  let step1 := "#### 步骤1：拉取代码\n"
  let content1 := content0 ++ step1
  match env.rm_step with
  | Except.error m => mkErrored task_id content1 [Event.stage step1] m
  | Except.ok rm_o =>
    let rm_result := execute_linux_cmd (rm_cmd req) rm_o
    let evs1 := [Event.stage step1, Event.exec (rm_cmd req) rm_result]
    match env.clone_step with
    | Except.error m => mkErrored task_id content1 evs1 m
    | Except.ok cl_o =>
      let pull_result := execute_linux_cmd (pull_cmd req) cl_o
      let content2 := content1 ++ pull_result ++ "\n\n"
      let evs2 := evs1 ++ [Event.exec (pull_cmd req) pull_result]
      if isFailure pull_result then
        let ai_suggest := ai_troubleshoot pull_result env.clone_ai
        let content3 := content2 ++ "#### AI修复建议\n" ++ ai_suggest ++ "\n"
        { status := Status.Failed,
          events := evs2 ++ [Event.advise pull_result ai_suggest,
            Event.notify ("部署失败[" ++ task_id ++ "]") content3],
          verify_check := none }
      else
        let step2 := "#### 步骤2：安装依赖\n"
        let content3 := content2 ++ step2
        match env.install_step with
        | Except.error m => mkErrored task_id content3 (evs2 ++ [Event.stage step2]) m
        | Except.ok in_o =>
          let install_result := execute_linux_cmd (install_cmd req) in_o
          let content4 := content3 ++ install_result ++ "\n\n"
          let evs3 := evs2 ++ [Event.stage step2, Event.exec (install_cmd req) install_result]
          let step3 := "#### 步骤3：启动服务\n"
          let content5 := content4 ++ step3
          match env.start_step with
          | Except.error m => mkErrored task_id content5 (evs3 ++ [Event.stage step3]) m
          | Except.ok st_o =>
            let start_result := execute_linux_cmd (start_cmd req) st_o
            let content6 := content5 ++ start_result ++ "\n\n"
            let evs4 := evs3 ++ [Event.stage step3, Event.exec (start_cmd req) start_result]
            match env.sleep_step with
            | some m => mkErrored task_id content6 evs4 m
            | none =>
              let step4 := "#### 步骤4：验证服务\n"
              let content7 := content6 ++ step4
              match env.check_step with
              | Except.error m => mkErrored task_id content7 (evs4 ++ [Event.stage step4]) m
              | Except.ok ck_o =>
                let check_result := execute_linux_cmd (check_cmd req) ck_o
                let evs5 := evs4 ++ [Event.stage step4, Event.exec (check_cmd req) check_result]
                if check_result ≠ "" then
                  let content8 := content7 ++ "端口" ++ toString req.port ++ "监听成功！\n"
                    ++ "#### 部署成功\n可访问：http://" ++ server_public_ip ++ ":"
                    ++ toString req.port ++ "\n"
                  { status := Status.Succeeded,
                    events := evs5 ++ [Event.notify ("部署成功[" ++ task_id ++ "]") content8],
                    verify_check := some check_result }
                else
                  let content8 := content7 ++ "端口" ++ toString req.port ++ "未监听，服务启动失败！\n"
                  let ai_ctx := "启动命令：" ++ start_cmd req ++ "\n端口" ++ toString req.port ++ "未监听"
                  let ai_suggest := ai_troubleshoot ai_ctx env.verify_ai
                  let content9 := content8 ++ "#### AI修复建议\n" ++ ai_suggest ++ "\n"
                  { status := Status.Failed,
                    events := evs5 ++ [Event.advise ai_ctx ai_suggest,
                      Event.notify ("部署失败[" ++ task_id ++ "]") content9],
                    verify_check := some check_result }

/-- Number of send_wechat_notification calls recorded in a trace. -/
def notifyCount (evs : List Event) : Nat :=
  (evs.filter fun e => match e with
    | Event.notify _ _ => true
    | _ => false).length

/-- Titles of the notifications recorded in a trace, in order. -/
def notifyTitles (evs : List Event) : List String :=
  evs.filterMap fun e => match e with
    | Event.notify t _ => some t
    | _ => none

/-- The ai_troubleshoot calls recorded in a trace, in order. -/
def adviseEvents (evs : List Event) : List Event :=
  evs.filter fun e => match e with
    | Event.advise _ _ => true
    | _ => false

set_option maxRecDepth 4096

/-- A concrete deployment request used to exercise the pipeline on fixed
inputs. -/
def req0 : DeployRequest :=
  { app_name := "web", repo_url := "https://github.com/u/app.git", port := 8000 }

/-- A concrete environment in which every stage command runs benignly but the
Verifying probe reports the port unbound: netstat piped through grep prints
nothing, so the probe completes with empty stdout and empty stderr. -/
def env_unbound : Env :=
  { rm_step := Except.ok (ExecOutcome.completed "" ""),
    clone_step := Except.ok (ExecOutcome.completed "cloning done" ""),
    install_step := Except.ok (ExecOutcome.completed "installed" ""),
    start_step := Except.ok (ExecOutcome.completed "" ""),
    sleep_step := none,
    check_step := Except.ok (ExecOutcome.completed "" ""),
    clone_ai := AIOutcome.ok "advice",
    verify_ai := AIOutcome.ok "advice" }

theorem append_left_pos (a b : String) (h : 0 < a.length) : 0 < (a ++ b).length := by
  rw [String.length_append]
  omega

theorem append_ne_empty (a b : String) (h : 0 < a.length) : a ++ b ≠ "" := by
  intro hc
  have h2 := congrArg String.length hc
  rw [String.length_append] at h2
  have h3 : ("" : String).length = 0 := rfl
  rw [h3] at h2
  omega

theorem execute_nonempty (cmd : String) (o : ExecOutcome) :
    execute_linux_cmd cmd o ≠ "" := by
  cases o with
  | completed out err =>
      simp only [execute_linux_cmd]
      split
      · exact append_ne_empty _ _ (append_left_pos _ _ (append_left_pos _ _ (by decide)))
      · exact append_ne_empty _ _ (append_left_pos _ _ (append_left_pos _ _ (by decide)))
  | timedOut => exact append_ne_empty _ _ (by decide)
  | exc msg =>
      exact append_ne_empty _ _ (append_left_pos _ _ (append_left_pos _ _ (by decide)))

theorem strContains_append_left (s t sub : String) (h : strContains s sub = true) :
    strContains (s ++ t) sub = true := by
  rw [strContains_iff] at h ⊢
  rw [String.data_append]
  exact sub_append_left h t.data

theorem strContains_append_right (s t sub : String) (h : strContains t sub = true) :
    strContains (s ++ t) sub = true := by
  rw [strContains_iff] at h ⊢
  rw [String.data_append]
  exact sub_append_right h s.data

theorem strContains_self (s : String) : strContains s s = true := by
  rw [strContains_iff]

theorem isFailure_of_keyword (s k : String) (hk : k ∈ git_error_keywords)
    (h : strContains s k = true) : isFailure s = true := by
  simp only [isFailure, List.any_eq_true]
  exact ⟨k, hk, h⟩

/-- C4: the error classifier is a pure function of the output text, true iff
the text contains at least one of the five fixed, case-sensitive keyword
substrings; the final two conjuncts exhibit case sensitivity on a concrete
text. -/
theorem error_classifier_keyword_iff :
    (∀ s : String,
      isFailure s = true ↔ ∃ k ∈ git_error_keywords, k.data <:+: s.data)
    ∧ isFailure "fatal: repository not found" = true
    ∧ isFailure "FATAL: REPOSITORY NOT FOUND" = false := by
  refine ⟨fun s => ?_, by decide, by decide⟩
  simp [isFailure, List.any_eq_true, strContains]

/-- C6 (amended): the executor is total — any internal fault is converted
into a returned result string, never a raised exception — and on the
exception path the result carries the distinguishing marker 命令执行异常
(the marker the spec names ExecutionException), together with the command. -/
theorem executor_never_raises_marker :
    ∀ (cmd msg : String),
      execute_linux_cmd cmd (ExecOutcome.exc msg)
          = "命令执行异常：" ++ cmd ++ "\n异常信息：" ++ msg
      ∧ strContains (execute_linux_cmd cmd (ExecOutcome.exc msg)) "命令执行异常" = true := by
  intro cmd msg
  refine ⟨rfl, ?_⟩
  show strContains ("命令执行异常：" ++ cmd ++ "\n异常信息：" ++ msg) "命令执行异常" = true
  apply strContains_append_left
  apply strContains_append_left
  apply strContains_append_left
  exact (by decide : strContains "命令执行异常：" "命令执行异常" = true)

/-- C6 counterexample: on an internal fault the returned result text does not
contain the literal marker string ExecutionException; the actual marker is
命令执行异常. -/
theorem executor_exception_marker_cx :
    execute_linux_cmd "git clone u /opt/web" (ExecOutcome.exc "boom")
        = "命令执行异常：git clone u /opt/web\n异常信息：boom"
    ∧ strContains (execute_linux_cmd "git clone u /opt/web" (ExecOutcome.exc "boom"))
        "ExecutionException" = false := by
  constructor
  · rfl
  · decide

/-- Derived timeout flag of a result string: the result starts with the
七-character timeout marker 命令执行超时：, which no other executor branch
produces as a prefix. -/
def timedOutResult (r : String) : Bool :=
  decide (r.data.take 7 = "命令执行超时：".data)

/-- C7: a command whose execution exceeds the executor's 30 s timeout bound
yields exactly the timeout marker with the command — a result marked as timed
out (and indeed carrying no partial output). -/
theorem executor_timeout_marked :
    ∀ cmd : String,
      execute_linux_cmd cmd ExecOutcome.timedOut = "命令执行超时：" ++ cmd
      ∧ timedOutResult (execute_linux_cmd cmd ExecOutcome.timedOut) = true := by
  intro cmd
  refine ⟨rfl, ?_⟩
  show timedOutResult ("命令执行超时：" ++ cmd) = true
  simp only [timedOutResult, String.data_append, decide_eq_true_eq]
  exact List.take_left' rfl

/-- C8 (amended): for a command completing within the timeout, the result
captures the standard error text when it is non-empty — the standard output
is then discarded — and otherwise captures the standard output text; in both
cases the captured stream appears in the result. -/
theorem executor_completed_capture :
    ∀ (cmd out err : String),
      (err ≠ "" →
        execute_linux_cmd cmd (ExecOutcome.completed out err)
            = "命令执行失败：" ++ cmd ++ "\n错误信息：" ++ err
        ∧ strContains (execute_linux_cmd cmd (ExecOutcome.completed out err)) err = true)
      ∧ (err = "" →
        execute_linux_cmd cmd (ExecOutcome.completed out err)
            = "命令执行成功：" ++ cmd ++ "\n输出：" ++ out
        ∧ strContains (execute_linux_cmd cmd (ExecOutcome.completed out err)) out = true) := by
  intro cmd out err
  constructor
  · intro he
    have h1 : execute_linux_cmd cmd (ExecOutcome.completed out err)
        = "命令执行失败：" ++ cmd ++ "\n错误信息：" ++ err := by
      simp only [execute_linux_cmd]
      rw [if_pos he]
    refine ⟨h1, ?_⟩
    rw [h1]
    exact strContains_append_right _ _ _ (strContains_self err)
  · intro he
    have h1 : execute_linux_cmd cmd (ExecOutcome.completed out err)
        = "命令执行成功：" ++ cmd ++ "\n输出：" ++ out := by
      simp only [execute_linux_cmd]
      rw [if_neg (by simp [he])]
    refine ⟨h1, ?_⟩
    rw [h1]
    exact strContains_append_right _ _ _ (strContains_self out)

/-- C8 witness: the amended theorem applied at a concrete completed command
with non-empty standard error. -/
theorem executor_completed_capture_witness :
    execute_linux_cmd "c" (ExecOutcome.completed "OUT" "ERR")
        = "命令执行失败：" ++ "c" ++ "\n错误信息：" ++ "ERR"
    ∧ strContains (execute_linux_cmd "c" (ExecOutcome.completed "OUT" "ERR")) "ERR" = true :=
  (executor_completed_capture "c" "OUT" "ERR").1 (by decide)

/-- C8 counterexample: a command that completed with stdout OUT and stderr
ERR yields a result that does not contain the standard output at all — both
streams are not captured. -/
theorem executor_both_streams_cx :
    strContains (execute_linux_cmd "c" (ExecOutcome.completed "OUT" "ERR")) "OUT" = false := by
  decide

/-- C2: the executor returns a non-empty string on every path, so the
Verifying stage's truthiness test on its result — recorded in verify_check
whenever that test was evaluated — never sees the empty string and never
takes the false branch. -/
theorem executor_nonempty_verify_never_false :
    (∀ (cmd : String) (o : ExecOutcome), execute_linux_cmd cmd o ≠ "")
    ∧ ∀ (ip tid : String) (req : DeployRequest) (env : Env),
        (deploy_web_app ip tid req env).verify_check ≠ some "" := by
  constructor
  · exact execute_nonempty
  · intro ip tid req env
    obtain ⟨rm, cl, ins, st, sl, ck, cai, vai⟩ := env
    rcases rm with m | r <;> rcases cl with m2 | c <;> rcases ins with m3 | i3 <;>
      rcases st with m4 | s4 <;> rcases sl with _ | m5 <;> rcases ck with m6 | k6 <;>
      simp only [deploy_web_app, mkErrored] <;>
      repeat' split
    all_goals simp [execute_nonempty]

/-- C2 witness: the non-emptiness theorem applied to the concrete probe
command of the unbound-port run, and the recorded truthiness operand of that
run. -/
theorem executor_nonempty_verify_never_false_witness :
    execute_linux_cmd (check_cmd req0) (ExecOutcome.completed "" "") ≠ ""
    ∧ (deploy_web_app "1.2.3.4" "t1" req0 env_unbound).verify_check ≠ some "" :=
  ⟨executor_nonempty_verify_never_false.1 (check_cmd req0) (ExecOutcome.completed "" ""),
   executor_nonempty_verify_never_false.2 "1.2.3.4" "t1" req0 env_unbound⟩

/-- C3: every pipeline run — classified clone failure, verify success, verify
failure, or an unhandled fault at any await point — records exactly one
send_wechat_notification call. -/
theorem notifier_called_exactly_once :
    ∀ (ip tid : String) (req : DeployRequest) (env : Env),
      notifyCount (deploy_web_app ip tid req env).events = 1 := by
  intro ip tid req env
  obtain ⟨rm, cl, ins, st, sl, ck, cai, vai⟩ := env
  rcases rm with m | r <;> rcases cl with m2 | c <;> rcases ins with m3 | i3 <;>
    rcases st with m4 | s4 <;> rcases sl with _ | m5 <;> rcases ck with m6 | k6 <;>
    simp only [deploy_web_app, mkErrored] <;>
    repeat' split
  all_goals simp [notifyCount]

/-- C5: when the clone output matches a classifier keyword the run's whole
trace is the two step-1 commands, one advisor call on exactly the clone
output, and then the failure notification — so the advisor runs before the
notification, the status is Failed, and the Installing and Starting stages
never appear; when no keyword matches (whatever the clone's error text), the
Installing stage header is reached. -/
theorem clone_classified_short_circuit :
    ∀ (ip tid : String) (req : DeployRequest) (env : Env) (r c : ExecOutcome),
      env.rm_step = Except.ok r → env.clone_step = Except.ok c →
      (isFailure (execute_linux_cmd (pull_cmd req) c) = true →
        (deploy_web_app ip tid req env).status = Status.Failed
        ∧ ∃ body : String,
            (deploy_web_app ip tid req env).events =
              [Event.stage "#### 步骤1：拉取代码\n",
               Event.exec (rm_cmd req) (execute_linux_cmd (rm_cmd req) r),
               Event.exec (pull_cmd req) (execute_linux_cmd (pull_cmd req) c),
               Event.advise (execute_linux_cmd (pull_cmd req) c)
                 (ai_troubleshoot (execute_linux_cmd (pull_cmd req) c) env.clone_ai),
               Event.notify ("部署失败[" ++ tid ++ "]") body])
      ∧ (isFailure (execute_linux_cmd (pull_cmd req) c) = false →
        Event.stage "#### 步骤2：安装依赖\n" ∈ (deploy_web_app ip tid req env).events) := by
  intro ip tid req env r c hr hc
  obtain ⟨rm, cl, ins, st, sl, ck, cai, vai⟩ := env
  simp only at hr hc
  subst hr hc
  constructor
  · intro hf
    simp [deploy_web_app, hf]
  · intro hf
    rcases ins with m3 | i3 <;> rcases st with m4 | s4 <;> rcases sl with _ | m5 <;>
      rcases ck with m6 | k6 <;>
      simp only [deploy_web_app, mkErrored, hf] <;>
      repeat' split
    all_goals simp_all

/-- An environment whose clone command reports a fatal git error on stderr;
the remaining stages are irrelevant because the pipeline short-circuits. -/
def env_clone_fail : Env :=
  { rm_step := Except.ok (ExecOutcome.completed "" ""),
    clone_step := Except.ok (ExecOutcome.completed "" "fatal: repository does not exist"),
    install_step := Except.ok (ExecOutcome.completed "" ""),
    start_step := Except.ok (ExecOutcome.completed "" ""),
    sleep_step := none,
    check_step := Except.ok (ExecOutcome.completed "" ""),
    clone_ai := AIOutcome.ok "check the repository URL",
    verify_ai := AIOutcome.ok "advice" }

/-- C5 witness: the short-circuit theorem applied to a concrete run whose
clone stderr contains fatal:. -/
theorem clone_classified_short_circuit_witness :
    (deploy_web_app "1.2.3.4" "t2" req0 env_clone_fail).status = Status.Failed
    ∧ ∃ body : String,
        (deploy_web_app "1.2.3.4" "t2" req0 env_clone_fail).events =
          [Event.stage "#### 步骤1：拉取代码\n",
           Event.exec (rm_cmd req0)
             (execute_linux_cmd (rm_cmd req0) (ExecOutcome.completed "" "")),
           Event.exec (pull_cmd req0)
             (execute_linux_cmd (pull_cmd req0)
               (ExecOutcome.completed "" "fatal: repository does not exist")),
           Event.advise
             (execute_linux_cmd (pull_cmd req0)
               (ExecOutcome.completed "" "fatal: repository does not exist"))
             (ai_troubleshoot
               (execute_linux_cmd (pull_cmd req0)
                 (ExecOutcome.completed "" "fatal: repository does not exist"))
               env_clone_fail.clone_ai),
           Event.notify ("部署失败[" ++ "t2" ++ "]") body] :=
  (clone_classified_short_circuit "1.2.3.4" "t2" req0 env_clone_fail
    (ExecOutcome.completed "" "")
    (ExecOutcome.completed "" "fatal: repository does not exist") rfl rfl).1 (by decide)

/-- C9: the Installing stage's outcome is recorded but never classified — the
run's terminal status is unchanged under swapping the install outcome for any
other, and whenever the pipeline reaches Installing (clone not classified)
the install result is recorded in the trace and the Starting stage is always
reached, whatever the install outcome. -/
theorem install_recorded_not_classified :
    (∀ (ip tid : String) (req : DeployRequest) (env : Env) (o1 o2 : ExecOutcome),
      (deploy_web_app ip tid req { env with install_step := Except.ok o1 }).status
        = (deploy_web_app ip tid req { env with install_step := Except.ok o2 }).status)
    ∧ ∀ (ip tid : String) (req : DeployRequest) (env : Env) (r c o1 : ExecOutcome),
        env.rm_step = Except.ok r → env.clone_step = Except.ok c →
        env.install_step = Except.ok o1 →
        isFailure (execute_linux_cmd (pull_cmd req) c) = false →
        Event.exec (install_cmd req) (execute_linux_cmd (install_cmd req) o1)
          ∈ (deploy_web_app ip tid req env).events
        ∧ Event.stage "#### 步骤3：启动服务\n" ∈ (deploy_web_app ip tid req env).events := by
  constructor
  · intro ip tid req env o1 o2
    obtain ⟨rm, cl, ins, st, sl, ck, cai, vai⟩ := env
    rcases rm with m | r <;> rcases cl with m2 | c <;>
      rcases st with m4 | s4 <;> rcases sl with _ | m5 <;> rcases ck with m6 | k6 <;>
      simp only [deploy_web_app, mkErrored] <;>
      repeat' split
    all_goals simp_all
  · intro ip tid req env r c o1 hr hc hi hf
    obtain ⟨rm, cl, ins, st, sl, ck, cai, vai⟩ := env
    simp only at hr hc hi
    subst hr hc hi
    rcases st with m4 | s4 <;> rcases sl with _ | m5 <;> rcases ck with m6 | k6 <;>
      simp only [deploy_web_app, mkErrored, hf] <;>
      repeat' split
    all_goals simp_all

/-- An environment whose install command times out while everything around it
is benign; the keyword-free clone lets the pipeline reach Installing. -/
def env_install_timeout : Env :=
  { rm_step := Except.ok (ExecOutcome.completed "" ""),
    clone_step := Except.ok (ExecOutcome.completed "cloning done" ""),
    install_step := Except.ok ExecOutcome.timedOut,
    start_step := Except.ok (ExecOutcome.completed "" ""),
    sleep_step := none,
    check_step := Except.ok (ExecOutcome.completed "listening" ""),
    clone_ai := AIOutcome.ok "advice",
    verify_ai := AIOutcome.ok "advice" }

/-- C9 witness: the pass-through theorem applied to a concrete run whose
install command timed out; the timed-out result is recorded and Starting is
still reached. -/
theorem install_recorded_not_classified_witness :
    Event.exec (install_cmd req0) (execute_linux_cmd (install_cmd req0) ExecOutcome.timedOut)
      ∈ (deploy_web_app "1.2.3.4" "t3" req0 env_install_timeout).events
    ∧ Event.stage "#### 步骤3：启动服务\n"
      ∈ (deploy_web_app "1.2.3.4" "t3" req0 env_install_timeout).events :=
  install_recorded_not_classified.2 "1.2.3.4" "t3" req0 env_install_timeout
    (ExecOutcome.completed "" "") (ExecOutcome.completed "cloning done" "")
    ExecOutcome.timedOut rfl rfl rfl (by decide)

theorem deploy_classified_failed (ip tid : String) (req : DeployRequest) (env : Env)
    (r c : ExecOutcome) (hr : env.rm_step = Except.ok r) (hc : env.clone_step = Except.ok c)
    (hf : isFailure (execute_linux_cmd (pull_cmd req) c) = true) :
    (deploy_web_app ip tid req env).status = Status.Failed := by
  obtain ⟨rm, cl, ins, st, sl, ck, cai, vai⟩ := env
  simp only at hr hc
  subst hr hc
  simp [deploy_web_app, hf]

theorem strContains_exec_result (cmd sub : String) (o : ExecOutcome)
    (h : strContains cmd sub = true) :
    strContains (execute_linux_cmd cmd o) sub = true := by
  cases o with
  | completed out err =>
      simp only [execute_linux_cmd]
      split
      · exact strContains_append_left _ _ _ (strContains_append_left _ _ _
          (strContains_append_right _ _ _ h))
      · exact strContains_append_left _ _ _ (strContains_append_left _ _ _
          (strContains_append_right _ _ _ h))
  | timedOut => exact strContains_append_right _ _ _ h
  | exc msg =>
      exact strContains_append_left _ _ _ (strContains_append_left _ _ _
        (strContains_append_right _ _ _ h))

/-- C10: the classifier runs on the executor's wrapped result, which embeds
the clone command and hence the repository URL; a repository URL containing
any classifier keyword therefore forces the Cloning stage to be classified as
a failure and the run to end Failed, for every possible outcome of the clone
command itself. -/
theorem repo_url_keyword_forces_failure :
    ∀ (ip tid : String) (req : DeployRequest) (env : Env) (r c : ExecOutcome) (k : String),
      env.rm_step = Except.ok r → env.clone_step = Except.ok c →
      k ∈ git_error_keywords → strContains req.repo_url k = true →
      isFailure (execute_linux_cmd (pull_cmd req) c) = true
      ∧ (deploy_web_app ip tid req env).status = Status.Failed := by
  intro ip tid req env r c k hr hc hk hurl
  have hcmd : strContains (pull_cmd req) k = true := by
    show strContains ("git clone " ++ req.repo_url ++ " " ++ deploy_dir req) k = true
    exact strContains_append_left _ _ _ (strContains_append_left _ _ _
      (strContains_append_right _ _ _ hurl))
  have hres : strContains (execute_linux_cmd (pull_cmd req) c) k = true :=
    strContains_exec_result _ _ _ hcmd
  have hf : isFailure (execute_linux_cmd (pull_cmd req) c) = true :=
    isFailure_of_keyword _ _ hk hres
  exact ⟨hf, deploy_classified_failed ip tid req env r c hr hc hf⟩

/-- A request whose repository URL itself contains the classifier keyword
error: as a substring. -/
def req_bad_url : DeployRequest :=
  { app_name := "web", repo_url := "https://example.com/error:repo.git", port := 80 }

/-- An environment in which the clone of the keyword-bearing URL actually
completes without any error output at all. -/
def env_clone_ok : Env :=
  { rm_step := Except.ok (ExecOutcome.completed "" ""),
    clone_step := Except.ok (ExecOutcome.completed "done" ""),
    install_step := Except.ok (ExecOutcome.completed "" ""),
    start_step := Except.ok (ExecOutcome.completed "" ""),
    sleep_step := none,
    check_step := Except.ok (ExecOutcome.completed "listening" ""),
    clone_ai := AIOutcome.ok "advice",
    verify_ai := AIOutcome.ok "advice" }

/-- C10 witness: a clone of the keyword-bearing URL that succeeds with empty
stderr is still classified as a failure and the run ends Failed. -/
theorem repo_url_keyword_forces_failure_witness :
    isFailure (execute_linux_cmd (pull_cmd req_bad_url) (ExecOutcome.completed "done" "")) = true
    ∧ (deploy_web_app "1.2.3.4" "t4" req_bad_url env_clone_ok).status = Status.Failed :=
  repo_url_keyword_forces_failure "1.2.3.4" "t4" req_bad_url env_clone_ok
    (ExecOutcome.completed "" "") (ExecOutcome.completed "done" "") "error:"
    rfl rfl (by decide) (by decide)

/-- Bodies of the notifications recorded in a trace, in order. -/
def notifyBodies (evs : List Event) : List String :=
  evs.filterMap fun e => match e with
    | Event.notify _ b => some b
    | _ => none

/-- C1 at the failing input: every stage command is benign and the port probe
reports the port unbound (netstat piped through grep prints nothing, so the
probe completes with empty stdout and stderr), yet the run ends Succeeded,
the only notification sent is the success one whose body carries the access
URL http://1.2.3.4:8000, and the advisor is never invoked — the Verifying
stage's truthiness test sees the executor's non-empty wrapper string, so the
failure branch the claim describes is unreachable. -/
theorem verify_unbound_port_still_succeeds :
    (deploy_web_app "1.2.3.4" "t1" req0 env_unbound).status = Status.Succeeded
    ∧ notifyTitles (deploy_web_app "1.2.3.4" "t1" req0 env_unbound).events = ["部署成功[t1]"]
    ∧ (notifyBodies (deploy_web_app "1.2.3.4" "t1" req0 env_unbound).events).all
        (fun b => strContains b "http://1.2.3.4:8000") = true
    ∧ adviseEvents (deploy_web_app "1.2.3.4" "t1" req0 env_unbound).events = []
    ∧ (deploy_web_app "1.2.3.4" "t1" req0 env_unbound).verify_check
        = some ("命令执行成功：" ++ check_cmd req0 ++ "\n输出：") := by
  refine ⟨by decide, by decide, by decide, by decide, by decide⟩

end DeployBot
